import Mathlib

/-!
Shallow embedding of `src/app/species/species-card.tsx`: the `SpeciesCard`
component of the species catalog. JS strings are modelled as Lean `String`
(one `Char` per JS character), JS numbers relevant to the form as integers
or NaN, nullable fields as `Option`, and the component's event handlers as
pure state-transition functions that also report their observable effects
(backend calls, toast notifications, router refreshes).
-/

set_option maxRecDepth 8000

namespace SpeciesCard

/-- One species record, as consumed by the component
(`Database["public"]["Tables"]["species"]["Row"]`, used at lines 67-72 of
`species-card.tsx`). Nullable columns are `Option`. -/
structure Species where
  id : Nat
  scientific_name : String
  common_name : Option String
  description : Option String
  kingdom : Option String
  total_population : Option Int
  image : Option String
  endangered : Bool
  author : String
deriving Repr, DecidableEq

/-- Characters removed by JavaScript `String.prototype.trim` (ECMAScript
whitespace and line terminators; the common representatives suffice for the
embedding). -/
def isJsWhitespace (c : Char) : Bool :=
  c = ' ' || c = '\t' || c = '\n' || c = '\r' || c = '\x0b' || c = '\x0c' ||
  c = ' ' || c = '﻿'

/-- JavaScript `s.trim()`: drop leading and trailing whitespace. -/
def jsTrim (s : String) : String :=
  String.mk (((s.data.dropWhile isJsWhitespace).reverse.dropWhile isJsWhitespace).reverse)

/-- JavaScript `s.slice(0, 150)`: the first 150 characters of `s`
(all of `s` when it is shorter). -/
def jsSliceTo150 (s : String) : String :=
  String.mk (s.data.take 150)

/-- JavaScript truthiness of a nullable string: `null` and `""` are falsy,
every other string is truthy. Used for `species.image && ...` and
`species.description ? ... : ...`. -/
def jsTruthyStr : Option String → Bool
  | none => false
  | some s => !s.isEmpty

/-- What the list-view card renders (lines 140-149 of `species-card.tsx`):
the optional thumbnail, the two name fields, and the description paragraph.
React renders `null` as empty text. -/
structure CardView where
  imageShown : Bool
  scientificNameText : String
  commonNameText : String
  descriptionText : String
deriving Repr, DecidableEq

/-- The card renderer. The description paragraph is
`species.description ? species.description.slice(0, 150).trim() + "..." : ""`
(line 149). -/
def renderCard (s : Species) : CardView :=
  { imageShown := jsTruthyStr s.image
    scientificNameText := s.scientific_name
    commonNameText := s.common_name.getD ""
    descriptionText :=
      if jsTruthyStr s.description then
        jsTrim (jsSliceTo150 (s.description.getD "")) ++ "..."
      else "" }

/-- What the detail dialog renders (lines 151-192 of `species-card.tsx`). -/
structure DetailView where
  imageShown : Bool
  titleText : String
  subtitleText : String
  totalPopulationText : String
  kingdomText : String
  endangeredText : String
  descriptionText : String
  ownerControlsShown : Bool
deriving Repr, DecidableEq

/-- The detail-dialog renderer. The description is shown in full
(`{species.description}`, line 176); the Edit and Delete buttons are both
inside the single conditional `species.author == sessionId && (...)`
(lines 178-187). -/
def renderDetail (s : Species) (sessionId : String) : DetailView :=
  { imageShown := jsTruthyStr s.image
    titleText := s.scientific_name
    subtitleText := s.common_name.getD ""
    totalPopulationText := (s.total_population.map toString).getD ""
    kingdomText := s.kingdom.getD ""
    endangeredText := if s.endangered then "Yes" else "No"
    descriptionText := s.description.getD ""
    ownerControlsShown := s.author == sessionId }

/-- C1: for a record whose description is longer than 150 characters, the
card's description paragraph is exactly the first 150 characters, trimmed,
with "..." appended. -/
theorem card_truncates_long_description (s : Species) (d : String)
    (hd : s.description = some d) (hl : 150 < d.length) :
    (renderCard s).descriptionText = jsTrim (jsSliceTo150 d) ++ "..." := by
  have hne : d ≠ "" := by
    intro h
    rw [h] at hl
    simp [String.length] at hl
  simp [renderCard, hd, jsTruthyStr, String.isEmpty_iff, hne]

/-- C1 witness: a concrete 151-character description is truncated to its
first 150 characters plus the ellipsis. -/
theorem card_truncates_long_description_witness :
    150 < (String.mk (List.replicate 151 'x')).length ∧
    (renderCard
      { id := 1, scientific_name := "Panthera leo", common_name := some "Lion",
        description := some (String.mk (List.replicate 151 'x')),
        kingdom := some "Animalia", total_population := some 20000,
        image := none, endangered := false, author := "u1" }).descriptionText
      = jsTrim (jsSliceTo150 (String.mk (List.replicate 151 'x'))) ++ "..." :=
  ⟨by decide,
   card_truncates_long_description _ (String.mk (List.replicate 151 'x')) rfl (by decide)⟩

/-- C2: the Edit and Delete controls of the detail dialog are rendered if
and only if the record's author identifier equals the session identifier
passed to the component. -/
theorem owner_controls_iff_author_eq_session (s : Species) (sessionId : String) :
    (renderDetail s sessionId).ownerControlsShown = true ↔ s.author = sessionId := by
  simp [renderDetail]

/-- C7: for a record whose description has length at most 150, the detail
dialog shows the full untruncated description text. -/
theorem detail_shows_full_short_description (s : Species) (sessionId : String)
    (d : String) (hd : s.description = some d) (_hl : d.length ≤ 150) :
    (renderDetail s sessionId).descriptionText = d := by
  simp [renderDetail, hd]

/-- C7 witness: a concrete 11-character description is shown in full in the
detail dialog. -/
theorem detail_shows_full_short_description_witness :
    ("short text.").length ≤ 150 ∧
    (renderDetail
      { id := 2, scientific_name := "Bufo bufo", common_name := none,
        description := some "short text.", kingdom := none,
        total_population := none, image := none, endangered := true,
        author := "u2" } "u3").descriptionText = "short text." :=
  ⟨by decide,
   detail_shows_full_short_description _ "u3" "short text." rfl (by decide)⟩

/-- C8: the card appends "..." after the trimmed first 150 characters of
every non-null, non-empty description, even one of length at most 150;
a null or empty description renders as the empty string with no ellipsis. -/
theorem card_ellipsis_always_and_empty_cases (s : Species) :
    (∀ d, s.description = some d → d ≠ "" →
      (renderCard s).descriptionText = jsTrim (jsSliceTo150 d) ++ "...") ∧
    ((s.description = none ∨ s.description = some "") →
      (renderCard s).descriptionText = "") := by
  constructor
  · intro d hd hne
    simp [renderCard, hd, jsTruthyStr, String.isEmpty_iff, hne]
  · rintro (h | h) <;> simp [renderCard, h] <;> decide

/-- C8 witness: a concrete 3-character description still gets the ellipsis,
and a null description renders as the empty string. -/
theorem card_ellipsis_always_and_empty_cases_witness :
    (renderCard
      { id := 3, scientific_name := "Apis mellifera", common_name := none,
        description := some "bee", kingdom := none, total_population := none,
        image := none, endangered := false, author := "u4" }).descriptionText
      = jsTrim (jsSliceTo150 "bee") ++ "..." ∧
    (renderCard
      { id := 4, scientific_name := "Canis lupus", common_name := none,
        description := none, kingdom := none, total_population := none,
        image := none, endangered := false, author := "u5" }).descriptionText
      = "" :=
  ⟨(card_ellipsis_always_and_empty_cases _).1 "bee" rfl (by decide),
   (card_ellipsis_always_and_empty_cases _).2 (Or.inl rfl)⟩

/-- A JavaScript number as the form stores it: an integer value or NaN.
The fractional values a number input could produce play no role in any
property below, so the numeric domain is modelled by `Int`. -/
inductive JsNum where
  | num (n : Int)
  | nan
deriving Repr, DecidableEq

/-- Helper for `jsNumber`: the value of an all-digit, non-empty character
list, or `none` when the list is empty or holds a non-digit. -/
def digitsValue (cs : List Char) : Option Nat :=
  if cs ≠ [] && cs.all Char.isDigit then
    some (cs.foldl (fun a c => a * 10 + (c.toNat - 48)) 0)
  else none

/-- JavaScript `Number(text)` on the strings a number input produces:
whitespace is trimmed, the empty string converts to `0`, an optionally
signed digit string to its value, and anything else to NaN. -/
def jsNumber (text : String) : JsNum :=
  match (jsTrim text).data with
  | [] => .num 0
  | '+' :: rest =>
      match digitsValue rest with
      | some n => .num n
      | none => .nan
  | '-' :: rest =>
      match digitsValue rest with
      | some n => .num (-(n : Int))
      | none => .nan
  | cs =>
      match digitsValue cs with
      | some n => .num n
      | none => .nan

/-- The form's field state (`useForm` at lines 91-95, seeded from
`defaultValues` at lines 80-89). The `author` key is carried in the
default values but has no field and no schema entry. -/
structure FormData where
  scientific_name : String
  common_name : Option String
  description : Option String
  kingdom : Option String
  total_population : Option JsNum
  image : Option String
  endangered : Bool
  author : String
deriving Repr, DecidableEq

/-- The `defaultValues` object (lines 80-89): every form field starts as
the corresponding record attribute. -/
def defaultValues (s : Species) : FormData :=
  { scientific_name := s.scientific_name
    common_name := s.common_name
    description := s.description
    kingdom := s.kingdom
    total_population := s.total_population.map JsNum.num
    image := s.image
    endangered := s.endangered
    author := s.author }

/-- Modelled from zod's `z.string().url()` check, which accepts exactly the
strings the WHATWG `URL` constructor accepts: the input must begin with a
scheme (a letter followed by letters, digits, `+`, `-` or `.`) and a colon.
The model keeps that scheme-and-colon prefix condition; in particular the
empty string and any string without a leading scheme are rejected. -/
def isSchemeTailChar (c : Char) : Bool :=
  c.isAlphanum || c = '+' || c = '-' || c = '.'

/-- Scan for the colon that ends a URL scheme, allowing only scheme
characters before it. -/
def schemeColonAhead : List Char → Bool
  | [] => false
  | c :: cs => if c = ':' then true else isSchemeTailChar c && schemeColonAhead cs

/-- Whether a string passes the schema's URL validation (see
`isSchemeTailChar` for the provenance of the model). -/
def isValidUrl (s : String) : Bool :=
  match s.data with
  | [] => false
  | c :: cs => c.isAlpha && schemeColonAhead cs

/-- The `speciesSchema` validation (lines 57-65): `scientific_name` must be
a non-empty string (message "Scientific name is required."),
`total_population` must be null or a number (zod rejects NaN), and `image`
must be null or pass URL validation (zod's default message "Invalid url").
The remaining fields accept every value of their type. Returns the list of
error messages, empty when the data parses. -/
def validateSpecies (fd : FormData) : List String :=
  (if fd.scientific_name.length < 1 then ["Scientific name is required."] else []) ++
  (match fd.total_population with
   | some JsNum.nan => ["Expected number, received nan"]
   | _ => []) ++
  (match fd.image with
   | some u => if isValidUrl u then [] else ["Invalid url"]
   | none => [])

/-- The component's local state: the three dialog flags (lines 75-77), the
form's current values, and the per-field validation errors the resolver
last produced. -/
structure CompState where
  openDetail : Bool
  isEditing : Bool
  isDeleting : Bool
  formValues : FormData
  formErrors : List String
deriving Repr, DecidableEq

/-- One toast notification (`toast({...})`). -/
structure Toast where
  title : String
  toastDescription : Option String
  destructive : Bool
deriving Repr, DecidableEq

/-- The observable effects of one event-handler run: backend update calls
(keyed by record id, with their payload), backend delete calls (keyed by
record id), toasts, and `router.refresh()` invocations. -/
structure Effects where
  updateCalls : List (Nat × FormData)
  deleteCalls : List Nat
  toasts : List Toast
  refreshes : Nat
deriving Repr, DecidableEq

/-- No effects at all. -/
def noEffects : Effects :=
  { updateCalls := [], deleteCalls := [], toasts := [], refreshes := 0 }

/-- The `onSubmit` handler (lines 97-117), with the backend's response as a
parameter (`none` = success, `some msg` = error with message `msg`). It
always issues one update keyed by the record id; on error it toasts the
backend message destructively and returns with the state untouched; on
success it clears `isEditing`, resets the form to the submitted data,
refreshes the router, and toasts success. -/
def onSubmit (speciesId : Nat) (st : CompState) (data : FormData)
    (backendError : Option String) : CompState × Effects :=
  match backendError with
  | some msg =>
      (st,
       { updateCalls := [(speciesId, data)], deleteCalls := []
         toasts := [{ title := "Something went wrong.",
                      toastDescription := some msg, destructive := true }]
         refreshes := 0 })
  | none =>
      ({ st with isEditing := false, formValues := data, formErrors := [] },
       { updateCalls := [(speciesId, data)], deleteCalls := []
         toasts := [{ title := "Species updated successfully!",
                      toastDescription := none, destructive := false }]
         refreshes := 1 })

/-- Submitting the edit form (`form.handleSubmit(onSubmit)`, line 202):
the zod resolver validates the current values first; when validation fails
the errors are recorded and `onSubmit` never runs, otherwise `onSubmit`
receives the validated values. -/
def submitEditForm (speciesId : Nat) (st : CompState)
    (backendError : Option String) : CompState × Effects :=
  if validateSpecies st.formValues = [] then
    onSubmit speciesId st st.formValues backendError
  else
    ({ st with formErrors := validateSpecies st.formValues }, noEffects)

/-- The `handleDelete` handler (lines 119-138), with the backend response
as a parameter. It always issues one delete keyed by the record id; on
error it toasts the backend message destructively and returns with the
state untouched; on success it clears `isDeleting`, refreshes the router,
and toasts success. -/
def handleDelete (speciesId : Nat) (st : CompState)
    (backendError : Option String) : CompState × Effects :=
  match backendError with
  | some msg =>
      (st,
       { updateCalls := [], deleteCalls := [speciesId]
         toasts := [{ title := "Something went wrong.",
                      toastDescription := some msg, destructive := true }]
         refreshes := 0 })
  | none =>
      ({ st with isDeleting := false },
       { updateCalls := [], deleteCalls := [speciesId]
         toasts := [{ title := "Species deleted successfully!",
                      toastDescription := none, destructive := false }]
         refreshes := 1 })

/-- The Confirm Delete button (line 330) runs `handleDelete`. -/
def confirmDeleteClick (speciesId : Nat) (st : CompState)
    (backendError : Option String) : CompState × Effects :=
  handleDelete speciesId st backendError

/-- The Cancel button of the delete dialog (lines 333-337) is a
`DialogClose`: it clears `isDeleting` and performs no other effect. -/
def cancelDeleteClick (st : CompState) : CompState × Effects :=
  ({ st with isDeleting := false }, noEffects)

/-- The Total Population field's change handler (line 253):
`field.onChange(Number(e.target.value))` stores the numeric conversion of
the input text. -/
def totalPopulationOnChange (inputText : String) (fd : FormData) : FormData :=
  { fd with total_population := some (jsNumber inputText) }

/-- The Image URL field's change handler (line 284): the default
`field.onChange` stores `e.target.value`, always a string. -/
def imageOnChange (inputText : String) (fd : FormData) : FormData :=
  { fd with image := some inputText }

/-- Helper: whenever validation of the current form values produces an
error message, submitted edits issue no backend call and the message is
among the recorded form errors. -/
theorem submit_blocked_of_error (speciesId : Nat) (st : CompState)
    (backendError : Option String) (msg : String)
    (hmem : msg ∈ validateSpecies st.formValues) :
    (submitEditForm speciesId st backendError).2.updateCalls = [] ∧
    msg ∈ (submitEditForm speciesId st backendError).1.formErrors := by
  have hne : validateSpecies st.formValues ≠ [] := by
    intro hnil
    rw [hnil] at hmem
    exact absurd hmem (List.not_mem_nil msg)
  unfold submitEditForm
  rw [if_neg hne]
  exact ⟨rfl, hmem⟩

/-- C3: submitting the edit form while the scientific name is the empty
string issues no backend update call, and the validation message
"Scientific name is required." is shown. -/
theorem empty_scientific_name_blocks_submit (speciesId : Nat) (st : CompState)
    (backendError : Option String) (h : st.formValues.scientific_name = "") :
    (submitEditForm speciesId st backendError).2.updateCalls = [] ∧
    "Scientific name is required." ∈ (submitEditForm speciesId st backendError).1.formErrors := by
  apply submit_blocked_of_error
  simp [validateSpecies, h]

/-- C3 witness: a concrete editing state with an empty scientific name. -/
theorem empty_scientific_name_blocks_submit_witness :
    ({ openDetail := true, isEditing := true, isDeleting := false
       formValues :=
         { scientific_name := "", common_name := some "Lion"
           description := some "big cat", kingdom := some "Animalia"
           total_population := some (JsNum.num 20000), image := none
           endangered := false, author := "u1" }
       formErrors := [] } : CompState).formValues.scientific_name = "" ∧
    ((submitEditForm 7
       { openDetail := true, isEditing := true, isDeleting := false
         formValues :=
           { scientific_name := "", common_name := some "Lion"
             description := some "big cat", kingdom := some "Animalia"
             total_population := some (JsNum.num 20000), image := none
             endangered := false, author := "u1" }
         formErrors := [] } none).2.updateCalls = [] ∧
     "Scientific name is required." ∈ (submitEditForm 7
       { openDetail := true, isEditing := true, isDeleting := false
         formValues :=
           { scientific_name := "", common_name := some "Lion"
             description := some "big cat", kingdom := some "Animalia"
             total_population := some (JsNum.num 20000), image := none
             endangered := false, author := "u1" }
         formErrors := [] } none).1.formErrors) :=
  ⟨rfl, empty_scientific_name_blocks_submit 7 _ none rfl⟩

/-- C4: an update attempt that the backend accepts closes the edit modal,
resets the form to the submitted values, issues the one update keyed by the
record id, toasts success and triggers exactly one refresh; an attempt the
backend rejects leaves the component state (modal and form values) exactly
as it was, toasts only the destructive error carrying the backend message,
and triggers no refresh. -/
theorem update_success_and_error_behavior (speciesId : Nat) (st : CompState)
    (data : FormData) :
    ((onSubmit speciesId st data none).1.isEditing = false ∧
     (onSubmit speciesId st data none).1.formValues = data ∧
     (onSubmit speciesId st data none).2.updateCalls = [(speciesId, data)] ∧
     (onSubmit speciesId st data none).2.toasts =
       [{ title := "Species updated successfully!", toastDescription := none,
          destructive := false }] ∧
     (onSubmit speciesId st data none).2.refreshes = 1) ∧
    (∀ msg,
     (onSubmit speciesId st data (some msg)).1 = st ∧
     (onSubmit speciesId st data (some msg)).2.updateCalls = [(speciesId, data)] ∧
     (onSubmit speciesId st data (some msg)).2.toasts =
       [{ title := "Something went wrong.", toastDescription := some msg,
          destructive := true }] ∧
     (onSubmit speciesId st data (some msg)).2.refreshes = 0) :=
  ⟨⟨rfl, rfl, rfl, rfl, rfl⟩, fun _ => ⟨rfl, rfl, rfl, rfl⟩⟩

/-- C5: confirming the delete dialog issues exactly one delete request
keyed by the record id whatever the backend answers, while canceling issues
no request or other effect and just closes the dialog; on success the
dialog closes, success is toasted and one refresh is triggered; on backend
error the state is untouched (dialog stays open) and the only notification
is the destructive error toast, with no refresh. -/
theorem delete_confirm_and_cancel_behavior (speciesId : Nat) (st : CompState) :
    (∀ backendError,
      (confirmDeleteClick speciesId st backendError).2.deleteCalls = [speciesId]) ∧
    ((cancelDeleteClick st).2 = noEffects ∧
     (cancelDeleteClick st).1.isDeleting = false) ∧
    ((confirmDeleteClick speciesId st none).1.isDeleting = false ∧
     (confirmDeleteClick speciesId st none).2.toasts =
       [{ title := "Species deleted successfully!", toastDescription := none,
          destructive := false }] ∧
     (confirmDeleteClick speciesId st none).2.refreshes = 1) ∧
    (∀ msg,
     (confirmDeleteClick speciesId st (some msg)).1 = st ∧
     (confirmDeleteClick speciesId st (some msg)).2.toasts =
       [{ title := "Something went wrong.", toastDescription := some msg,
          destructive := true }] ∧
     (confirmDeleteClick speciesId st (some msg)).2.refreshes = 0) := by
  refine ⟨fun backendError => ?_, ⟨rfl, rfl⟩, ⟨rfl, rfl, rfl⟩,
    fun msg => ⟨rfl, rfl, rfl⟩⟩
  cases backendError <;> rfl

/-- C6: submitting the edit form while the image field holds a value that
fails URL validation issues no backend update call. -/
theorem invalid_image_url_blocks_submit (speciesId : Nat) (st : CompState)
    (backendError : Option String) (u : String)
    (hu : st.formValues.image = some u) (hv : isValidUrl u = false) :
    (submitEditForm speciesId st backendError).2.updateCalls = [] := by
  refine (submit_blocked_of_error speciesId st backendError "Invalid url" ?_).1
  simp [validateSpecies, hu, hv]

/-- C6 witness: a concrete editing state whose image field holds
"not a url", which fails URL validation. -/
theorem invalid_image_url_blocks_submit_witness :
    ({ openDetail := true, isEditing := true, isDeleting := false
       formValues :=
         { scientific_name := "Panthera leo", common_name := none
           description := none, kingdom := none, total_population := none
           image := some "not a url", endangered := false, author := "u1" }
       formErrors := [] } : CompState).formValues.image = some "not a url" ∧
    isValidUrl "not a url" = false ∧
    (submitEditForm 9
      { openDetail := true, isEditing := true, isDeleting := false
        formValues :=
          { scientific_name := "Panthera leo", common_name := none
            description := none, kingdom := none, total_population := none
            image := some "not a url", endangered := false, author := "u1" }
        formErrors := [] } none).2.updateCalls = [] :=
  ⟨rfl, by decide,
   invalid_image_url_blocks_submit 9 _ none "not a url" rfl (by decide)⟩

/-- C9: every edit of the Total Population field stores the numeric
conversion of the input text; clearing the field stores 0 (the conversion
of the empty string); the stored value is never null, so every update
payload submitted after such an edit carries a non-null total population. -/
theorem total_population_numeric_never_null (inputText : String) (fd : FormData)
    (speciesId : Nat) (st : CompState) (backendError : Option String) :
    (totalPopulationOnChange inputText fd).total_population
      = some (jsNumber inputText) ∧
    (totalPopulationOnChange "" fd).total_population = some (JsNum.num 0) ∧
    (totalPopulationOnChange inputText fd).total_population ≠ none ∧
    (∀ p ∈ (submitEditForm speciesId
        { st with formValues := totalPopulationOnChange inputText st.formValues }
        backendError).2.updateCalls,
      p.2.total_population ≠ none) := by
  refine ⟨rfl, rfl, by simp [totalPopulationOnChange], ?_⟩
  intro p hp
  unfold submitEditForm at hp
  by_cases hval : validateSpecies
      ({ st with formValues := totalPopulationOnChange inputText st.formValues }
        : CompState).formValues = []
  · rw [if_pos hval] at hp
    cases backendError <;>
    · simp only [onSubmit, List.mem_singleton] at hp
      subst hp
      simp [totalPopulationOnChange]
  · rw [if_neg hval] at hp
    exact absurd hp (List.not_mem_nil p)

/-- C10: clearing the Image URL field stores the empty string, never null;
the empty string fails the schema's URL validation ("Invalid url" is
reported), so the subsequent submit issues no backend call; no input to the
field can ever store null, so the image cannot be set back to null through
the form. -/
theorem cleared_image_blocks_submit (fd : FormData) (speciesId : Nat)
    (st : CompState) (backendError : Option String) :
    (imageOnChange "" fd).image = some "" ∧
    (imageOnChange "" fd).image ≠ none ∧
    isValidUrl "" = false ∧
    "Invalid url" ∈ validateSpecies (imageOnChange "" fd) ∧
    (submitEditForm speciesId { st with formValues := imageOnChange "" st.formValues }
        backendError).2.updateCalls = [] ∧
    (∀ inputText, (imageOnChange inputText fd).image ≠ none) := by
  refine ⟨rfl, by simp [imageOnChange], rfl, ?_, ?_, fun inputText => by simp [imageOnChange]⟩
  · simp [validateSpecies, imageOnChange, isValidUrl]
  · refine (submit_blocked_of_error speciesId _ backendError "Invalid url" ?_).1
    simp [validateSpecies, imageOnChange, isValidUrl]

end SpeciesCard
